import Mathlib

/-!
Verification of the clustering-and-summary pipeline of `llm_cluster.py`.

The single source file registers a `cluster` command that
  1. reads `(id, embedding, content)` rows for a named collection from a
     SQLite store,
  2. fits a MiniBatchKMeans model to the embedding vectors and takes its
     label array,
  3. groups the rows by stringified label into an insertion-ordered dict,
     truncating each content via `truncate_text`,
  4. optionally asks a language model for a summary title per cluster,
     sampling items when the concatenated content is too long.

The definitions below are a shallow embedding of that file.  Python strings
are Lean `String`s (code points = `Char`s); `None` is `Option.none`.
Embedding vectors are opaque to the pipeline (they are only handed to the
external sklearn `fit`), so their entries are modelled as `Int`; the `fit`
call itself and `random.sample` are external library calls, modelled as
explicit function parameters constrained by their documented behaviour.
-/

/-- A row of the `embeddings` table: `(id, embedding, content, collection_id)`.
`content` is nullable. -/
structure StoreRow where
  id : String
  embedding : List Int
  content : Option String
  collection_id : Nat
deriving Repr, DecidableEq

/-- The store: the `collections` table (`name` to `id`) and the
`embeddings` table. -/
structure Store where
  collections : List (String × Nat)
  embeddings : List StoreRow
deriving Repr

/-- The scalar subquery `select id from collections where name = ?`:
first matching row, or SQL NULL when the name is absent. -/
def lookupCollection (st : Store) (name : String) : Option Nat :=
  (st.collections.find? (fun c => c.1 == name)).map (fun c => c.2)

/-- The row query of the source:
`select id, embedding, content from embeddings where collection_id = (...)`.
When the subquery yields NULL, `collection_id = NULL` holds for no row, so
the result is empty. -/
def readRows (st : Store) (name : String) : List StoreRow :=
  match lookupCollection st name with
  | none => []
  | some cid => st.embeddings.filter (fun r => r.collection_id == cid)

/-- `truncate_text` of the source:
`if not text: return None; if truncate > 0: return text[:truncate]; else: return text`.
Python `not text` is true for both `None` and the empty string. -/
def truncate_text (truncate : Int) (text : Option String) : Option String :=
  match text with
  | none => none
  | some t =>
      if t = "" then none
      else if truncate > 0 then some (String.mk (t.data.take truncate.toNat))
      else some t

/-- An element of a cluster's `items` list: `{"id": ..., "content": ...}`. -/
structure OutItem where
  id : String
  content : Option String
deriving Repr, DecidableEq

/-- The truncated item built for a row at line 101 of the source:
`{"id": str(id), "content": truncate_text(content)}`. -/
def outItem (truncate : Int) (r : StoreRow) : OutItem :=
  ⟨r.id, truncate_text truncate r.content⟩

/-- One `clusters.setdefault(str(cluster), []).append(item)` step: append the
item to the list of the first entry with this key, or add a fresh entry at
the end (Python dicts preserve insertion order). -/
def groupInsert (m : List (String × List OutItem)) (key : String) (item : OutItem) :
    List (String × List OutItem) :=
  match m with
  | [] => [(key, [item])]
  | c :: rest =>
      if c.1 = key then (c.1, c.2 ++ [item]) :: rest
      else c :: groupInsert rest key item

/-- The `(str(cluster), item)` pairs scanned by the grouping loop, in
retrieval order: `zip(rows, assignments)`. -/
def pairs (truncate : Int) (rows : List StoreRow) (labels : List Nat) :
    List (String × OutItem) :=
  (rows.zip labels).map (fun p => (toString p.2, outItem truncate p.1))

/-- The grouping loop of lines 98 to 102, followed by the re-arrangement
into a list at line 104: each entry is one output cluster
`{"id": label, "items": items}`. -/
def buildClusters (truncate : Int) (rows : List StoreRow) (labels : List Nat) :
    List (String × List OutItem) :=
  (pairs truncate rows labels).foldl (fun m p => groupInsert m p.1 p.2) []

/-- The cluster ids of an output, in emission order. -/
def keysOf : List (String × List OutItem) → List String
  | [] => []
  | c :: cs => c.1 :: keysOf cs

/-- The items of the first cluster with the given id, or `[]` when absent. -/
def findVal : List (String × List OutItem) → String → List OutItem
  | [], _ => []
  | c :: cs, k => if c.1 = k then c.2 else findVal cs k

/-- All items of an output, clusters concatenated in emission order. -/
def flatItems : List (String × List OutItem) → List OutItem
  | [] => []
  | c :: cs => c.2 ++ flatItems cs

/-- First-occurrence deduplication: the keys of `ks` in the order each one
is first encountered, given the keys already `seen`. -/
def newKeys (seen : List String) : List String → List String
  | [] => []
  | k :: ks => if seen.contains k then newKeys seen ks
               else k :: newKeys (seen ++ [k]) ks

/-- Keys of a list in first-encounter order. -/
def dedupFirst (ks : List String) : List String := newKeys [] ks

/-- The characters Python `str.strip()` removes (ASCII whitespace range
`\t` to `\r` plus space). -/
def pyIsSpace (c : Char) : Bool :=
  c = ' ' || c = '\t' || c = '\n' || c = '\x0b' || c = '\x0c' || c = '\r'

/-- Truthiness of `s.strip()`: the string has some non-whitespace
character. -/
def hasNonWs (s : String) : Bool :=
  s.data.any (fun c => !(pyIsSpace c))

/-- Line 125 to 127 of the source:
`"\n".join([item["content"] for item in items if item["content"]])` —
keep the truthy contents (neither None nor empty) and join with newlines. -/
def joinContents (items : List OutItem) : String :=
  String.intercalate "\n" ((items.filterMap (fun i => i.content)).filter (fun s => s != ""))

/-- Line 129 of the source, `int(len(cluster["items"]) * sample/100)`:
for non-negative operands, float multiplication and division by 100
followed by `int` truncation is exact integer floor division. -/
def numSampled (count samplePct : Nat) : Nat :=
  count * samplePct / 100

/-- The text handed to the model for one cluster, lines 125 to 132:
join the items' contents; when the result is longer than
`sample_threshold`, rebuild it from a sample of
`numSampled` items.  `pick k items` stands for the external
`random.sample(items, k)`, constrained by its documented behaviour in the
theorems. -/
def promptTextForCluster (sample_threshold : Int) (samplePct : Nat)
    (pick : Nat → List OutItem → List OutItem) (items : List OutItem) : String :=
  let full := joinContents items
  if (full.length : Int) > sample_threshold then
    joinContents (pick (numSampled items.length samplePct) items)
  else full

/-- Lines 133 to 139: call the model when the stripped text is non-empty,
otherwise the summary is None.  The Bool records whether the model was
invoked; `modelCall` stands for `model.prompt(...).text()`. -/
def summaryForCluster (sample_threshold : Int) (samplePct : Nat)
    (pick : Nat → List OutItem → List OutItem) (modelCall : String → String)
    (items : List OutItem) : Option String × Bool :=
  let t := promptTextForCluster sample_threshold samplePct pick items
  if hasNonWs t then (some (modelCall t), true) else (none, false)

/-- The two ways a run can abort before emitting clusters. -/
inductive RunError
  | notFound
  | clustering
deriving Repr, DecidableEq

/-- The run up to the cluster list: read the rows, fit the clustering model
on the embedding matrix, group by label.  `fit` stands for the external
`sklearn MiniBatchKMeans(...).fit`; sklearn raises a ValueError on an
empty sample matrix, which theorems state as
`fit [] n = .error .clustering`. -/
def runCluster (fit : List (List Int) → Nat → Except RunError (List Nat))
    (st : Store) (name : String) (n : Nat) (truncate : Int) :
    Except RunError (List (String × List OutItem)) :=
  match fit ((readRows st name).map (fun r => r.embedding)) n with
  | .error e => .error e
  | .ok labels => .ok (buildClusters truncate (readRows st name) labels)

/-- Follows the spec's words (for comparison with `numSampled`):
round(item_count * sample/100), rounding to the nearest integer.  Exact at
non-ties; Python's round is banker's at ties, so comparisons below avoid
ties. -/
def roundSampleSize (count samplePct : Nat) : Nat :=
  (count * samplePct + 50) / 100

/-- Follows the spec's words (for comparison with the code's prompt text):
the text built from the items' full, untruncated source content. -/
def untruncatedText (rows : List StoreRow) : String :=
  String.intercalate "\n" ((rows.filterMap (fun r => r.content)).filter (fun s => s != ""))

/-- Stand-in for the external `sklearn MiniBatchKMeans(...).fit` followed by
`labels_`: raises (clustering error) on an empty sample matrix, otherwise
returns one valid labelling (all zeros, one of the nondeterministically
possible outputs). -/
def fitStub (vs : List (List Int)) (_n : Nat) : Except RunError (List Nat) :=
  if vs.isEmpty then .error .clustering else .ok (vs.map (fun _ => 0))

lemma fitStub_ok_length (vs : List (List Int)) (m : Nat) (ls : List Nat)
    (h : fitStub vs m = .ok ls) : ls.length = vs.length := by
  unfold fitStub at h
  split at h
  · exact absurd h (by simp)
  · cases h
    simp

/-- C4 counterexample: at `truncate = 0` an item whose source content is the
empty string comes out with null content, not with its source content. -/
theorem C4_counterexample :
    truncate_text 0 (some "") = none ∧ (none : Option String) ≠ some "" := by
  constructor
  · rfl
  · simp

/-- C4 (amended): when `truncate = 0`, every item's non-empty content is
passed through unmodified and null content stays null; empty-string content
becomes null (Python falsiness of the empty string). -/
theorem C4_truncate_zero (s : String) (h : s ≠ "") :
    truncate_text 0 (some s) = some s ∧ truncate_text 0 none = none ∧
      truncate_text 0 (some "") = none := by
  refine ⟨?_, rfl, rfl⟩
  simp [truncate_text, h]

theorem C4_truncate_zero_witness :
    truncate_text 0 (some "ab") = some "ab" ∧ truncate_text 0 none = none ∧
      truncate_text 0 (some "") = none :=
  C4_truncate_zero "ab" (by decide)

/-- C5 counterexample: at `truncate = 1` an item whose source content is the
empty string comes out with null content, while the first 1 characters of
its source content are the empty string. -/
theorem C5_counterexample :
    truncate_text 1 (some "") = none ∧
      String.mk (("" : String).data.take 1) = "" ∧ (none : Option String) ≠ some "" := by
  refine ⟨rfl, rfl, by simp⟩

/-- C5 (amended): when `truncate = k > 0`, every item's non-empty content
comes out as the first k characters of its source content, hence with
length at most k; null content stays null (and empty content becomes
null). -/
theorem C5_truncate_pos (k : Int) (s : String) (hk : 0 < k) (hs : s ≠ "") :
    truncate_text k (some s) = some (String.mk (s.data.take k.toNat)) ∧
      (String.mk (s.data.take k.toNat)).length ≤ k.toNat ∧
      truncate_text k none = none := by
  refine ⟨?_, ?_, rfl⟩
  · simp [truncate_text, hs, hk]
  · show (s.data.take k.toNat).length ≤ k.toNat
    exact List.length_take_le _ _

theorem C5_truncate_pos_witness :
    truncate_text 3 (some "hello") = some (String.mk (("hello" : String).data.take (3 : Int).toNat)) ∧
      (String.mk (("hello" : String).data.take (3 : Int).toNat)).length ≤ (3 : Int).toNat ∧
      truncate_text 3 none = none :=
  C5_truncate_pos 3 "hello" (by decide) (by decide)

/-- C9: for every negative truncate value, `truncate_text` behaves exactly
as for truncate = 0; in particular non-empty content is passed through
unmodified. -/
theorem C9_truncate_neg (t : Int) (ht : t < 0) :
    (∀ x : Option String, truncate_text t x = truncate_text 0 x) ∧
      ∀ s : String, s ≠ "" → truncate_text t (some s) = some s := by
  have hnp : ¬ t > 0 := by omega
  constructor
  · intro x
    cases x with
    | none => rfl
    | some s => simp [truncate_text, hnp]
  · intro s hs
    simp [truncate_text, hs, hnp]

theorem C9_truncate_neg_witness :
    truncate_text (-3) (some "ab") = truncate_text 0 (some "ab") ∧
      truncate_text (-3) (some "ab") = some "ab" :=
  ⟨(C9_truncate_neg (-3) (by decide)).1 (some "ab"),
   (C9_truncate_neg (-3) (by decide)).2 "ab" (by decide)⟩

/-- C6 counterexample: for a cluster of 3 items at sample = 60, the code
draws int(3 * 60/100) = 1 item, while round(3 * 60/100) = round(1.8) = 2;
the sample size is not the rounded value. -/
theorem C6_counterexample :
    numSampled 3 60 = 1 ∧ roundSampleSize 3 60 = 2 ∧
      numSampled 3 60 ≠ roundSampleSize 3 60 := by
  refine ⟨rfl, rfl, by decide⟩

/-- C6 (amended): when a cluster's concatenated content exceeds
sample_threshold, the number of items drawn in the size-reduction sample
equals int(item_count * sample / 100), the floor of item_count * sample /
100 (not its rounding to nearest); for sample ≤ 100 this never exceeds the
item count, so the draw (uniform, without replacement) is well defined and
returns exactly that many items. -/
theorem C6_sample_size (items : List OutItem) (samplePct : Nat)
    (pick : Nat → List OutItem → List OutItem)
    (hpct : samplePct ≤ 100)
    (hpick : ∀ k, k ≤ items.length → (pick k items).length = k) :
    numSampled items.length samplePct ≤ items.length ∧
      (pick (numSampled items.length samplePct) items).length =
        numSampled items.length samplePct := by
  have hle : numSampled items.length samplePct ≤ items.length := by
    have h1 : items.length * samplePct ≤ items.length * 100 :=
      Nat.mul_le_mul_left _ hpct
    calc numSampled items.length samplePct
        = items.length * samplePct / 100 := rfl
      _ ≤ items.length * 100 / 100 := Nat.div_le_div_right h1
      _ = items.length := by omega
  exact ⟨hle, hpick _ hle⟩

theorem C6_sample_size_witness :
    numSampled 3 60 ≤ 3 ∧
      ((fun (k : Nat) (xs : List OutItem) => xs.take k) (numSampled 3 60)
          [⟨"a", some "aaaa"⟩, ⟨"b", some "bbbb"⟩, ⟨"c", some "cccc"⟩]).length =
        numSampled 3 60 :=
  C6_sample_size [⟨"a", some "aaaa"⟩, ⟨"b", some "bbbb"⟩, ⟨"c", some "cccc"⟩] 60
    (fun k xs => xs.take k) (by decide)
    (by
      intro k hk
      simp only [List.length_take]
      omega)

/-- C7: when the text assembled for a cluster is empty or whitespace-only,
the summary is null and no model invocation occurs. -/
theorem C7_blank_text_no_call (sample_threshold : Int) (samplePct : Nat)
    (pick : Nat → List OutItem → List OutItem) (modelCall : String → String)
    (items : List OutItem)
    (h : ∀ c ∈ (promptTextForCluster sample_threshold samplePct pick items).data,
      pyIsSpace c) :
    summaryForCluster sample_threshold samplePct pick modelCall items =
      (none, false) := by
  unfold summaryForCluster
  have hws : hasNonWs (promptTextForCluster sample_threshold samplePct pick items) = false := by
    simp only [hasNonWs, List.any_eq_false, Bool.not_eq_true]
    intro c hc
    simp [h c hc]
  simp [hws]

theorem C7_blank_text_no_call_witness :
    summaryForCluster 100 80 (fun k xs => xs.take k) (fun s => s)
      [⟨"a", none⟩, ⟨"b", none⟩] = (none, false) :=
  C7_blank_text_no_call 100 80 (fun k xs => xs.take k) (fun s => s)
    [⟨"a", none⟩, ⟨"b", none⟩] (by decide)

/-- C10: when a cluster's concatenated content exceeds sample_threshold but
int(item_count * sample / 100) = 0, the sampling step selects zero items,
the rebuilt text is empty, and the summary is null with no model call. -/
theorem C10_empty_sample_null_summary (sample_threshold : Int) (samplePct : Nat)
    (pick : Nat → List OutItem → List OutItem) (modelCall : String → String)
    (items : List OutItem)
    (hlong : ((joinContents items).length : Int) > sample_threshold)
    (hzero : numSampled items.length samplePct = 0)
    (hpick : pick 0 items = []) :
    promptTextForCluster sample_threshold samplePct pick items = "" ∧
      summaryForCluster sample_threshold samplePct pick modelCall items =
        (none, false) := by
  have htext : promptTextForCluster sample_threshold samplePct pick items = "" := by
    unfold promptTextForCluster
    simp only [hlong, if_pos, hzero, hpick]
    rfl
  refine ⟨htext, ?_⟩
  unfold summaryForCluster
  rw [htext]
  rfl

theorem C10_empty_sample_null_summary_witness :
    promptTextForCluster 5 10 (fun k xs => xs.take k)
        [⟨"a", some "a long content string"⟩] = "" ∧
      summaryForCluster 5 10 (fun k xs => xs.take k) (fun s => s)
        [⟨"a", some "a long content string"⟩] = (none, false) :=
  C10_empty_sample_null_summary 5 10 (fun k xs => xs.take k) (fun s => s)
    [⟨"a", some "a long content string"⟩] (by decide) (by decide) (by decide)

lemma flatItems_groupInsert (m : List (String × List OutItem)) (k : String)
    (it : OutItem) :
    List.Perm (flatItems (groupInsert m k it)) (flatItems m ++ [it]) := by
  induction m with
  | nil => simp [groupInsert, flatItems]
  | cons c rest ih =>
      by_cases hk : c.1 = k
      · simp only [groupInsert, if_pos hk, flatItems]
        simpa [List.append_assoc] using
          List.Perm.append_left c.2
            (@List.perm_append_comm _ [it] (flatItems rest))
      · simp only [groupInsert, if_neg hk, flatItems]
        simpa [List.append_assoc] using List.Perm.append_left c.2 ih

lemma flatItems_foldl (ps : List (String × OutItem))
    (m : List (String × List OutItem)) :
    List.Perm (flatItems (ps.foldl (fun acc p => groupInsert acc p.1 p.2) m))
      (flatItems m ++ ps.map (fun p => p.2)) := by
  induction ps generalizing m with
  | nil => simp
  | cons p ps ih =>
      simp only [List.foldl_cons, List.map_cons]
      have h3 :=
        (ih (groupInsert m p.1 p.2)).trans
          (List.Perm.append_right (ps.map (fun q => q.2))
            (flatItems_groupInsert m p.1 p.2))
      simpa [List.append_assoc] using h3

/-- C1: for every run that emits clusters, the ids of the items across all
output clusters are a permutation of the ids returned by the store reader
for the given collection: no item lost or duplicated, each appears in
exactly one cluster. -/
theorem C1_partition_of_reader_ids
    (fit : List (List Int) → Nat → Except RunError (List Nat))
    (st : Store) (name : String) (n : Nat) (t : Int)
    (clusters : List (String × List OutItem))
    (hfit : ∀ vs m ls, fit vs m = Except.ok ls → ls.length = vs.length)
    (hrun : runCluster fit st name n t = Except.ok clusters) :
    List.Perm ((flatItems clusters).map (fun i => i.id))
      ((readRows st name).map (fun r => r.id)) := by
  unfold runCluster at hrun
  split at hrun
  · exact absurd hrun (by simp)
  · rename_i labels heq
    cases hrun
    have hlen : labels.length = (readRows st name).length := by
      simpa using hfit _ _ _ heq
    have h1 := flatItems_foldl (pairs t (readRows st name) labels) []
    simp only [flatItems, List.nil_append] at h1
    have h2 := h1.map (fun i : OutItem => i.id)
    have h3 : ((pairs t (readRows st name) labels).map (fun p => p.2)).map
        (fun i : OutItem => i.id) = (readRows st name).map (fun r => r.id) := by
      simp only [pairs, List.map_map]
      have hco : ((fun i : OutItem => i.id) ∘ (fun p : String × OutItem => p.2) ∘
          (fun p : StoreRow × Nat => (toString p.2, outItem t p.1))) =
          (fun r : StoreRow => r.id) ∘ Prod.fst := rfl
      rw [hco, ← List.map_map, List.map_fst_zip _ _ (le_of_eq hlen.symm)]
    rw [h3] at h2
    exact h2

/-- Fixture rows and store for concrete instantiations. -/
def wRows : List StoreRow :=
  [⟨"a", [1], some "alpha", 1⟩, ⟨"b", [2], none, 1⟩, ⟨"c", [3], some "gamma", 1⟩]

def wStore : Store := ⟨[("docs", 1)], wRows⟩

theorem C1_partition_of_reader_ids_witness :
    List.Perm
      ((flatItems (buildClusters 0 (readRows wStore "docs") [0, 0, 0])).map
        (fun i => i.id))
      ((readRows wStore "docs").map (fun r => r.id)) :=
  C1_partition_of_reader_ids fitStub wStore "docs" 2 0
    (buildClusters 0 (readRows wStore "docs") [0, 0, 0])
    (fun vs m ls h => fitStub_ok_length vs m ls h) (by rfl)

lemma keysOf_groupInsert (m : List (String × List OutItem)) (k : String)
    (it : OutItem) :
    keysOf (groupInsert m k it) =
      if (keysOf m).contains k then keysOf m else keysOf m ++ [k] := by
  induction m with
  | nil => simp [groupInsert, keysOf]
  | cons c rest ih =>
      by_cases hk : c.1 = k
      · simp [groupInsert, keysOf, hk, List.contains_cons]
      · have hkc : ¬ k = c.1 := fun h => hk h.symm
        cases h2 : (keysOf rest).contains k with
        | false =>
            have h2m : k ∉ keysOf rest := by simpa using h2
            simp [groupInsert, keysOf, hk, ih, h2, hkc, h2m]
        | true =>
            have h2m : k ∈ keysOf rest := by simpa using h2
            simp [groupInsert, keysOf, hk, ih, h2, hkc, h2m]

lemma keysOf_foldl (ps : List (String × OutItem))
    (m : List (String × List OutItem)) :
    keysOf (ps.foldl (fun acc p => groupInsert acc p.1 p.2) m) =
      keysOf m ++ newKeys (keysOf m) (ps.map (fun p => p.1)) := by
  induction ps generalizing m with
  | nil => simp [newKeys]
  | cons p ps ih =>
      simp only [List.foldl_cons, List.map_cons, newKeys]
      cases h : (keysOf m).contains p.1 with
      | false =>
          rw [ih, keysOf_groupInsert, if_neg (by simpa using h)]
          simp
      | true =>
          rw [ih, keysOf_groupInsert, if_pos (by simpa using h)]
          simp [h]

lemma findVal_groupInsert (m : List (String × List OutItem)) (k : String)
    (it : OutItem) (q : String) :
    findVal (groupInsert m k it) q =
      if q = k then findVal m k ++ [it] else findVal m q := by
  induction m with
  | nil =>
      by_cases hq : q = k
      · simp [groupInsert, findVal, hq]
      · simp [groupInsert, findVal, hq, Ne.symm hq]
  | cons c rest ih =>
      by_cases hk : c.1 = k
      · subst hk
        by_cases hq : c.1 = q
        · simp [groupInsert, findVal, hq]
        · simp [groupInsert, findVal, hq, Ne.symm hq]
      · by_cases hq : c.1 = q
        · have hqk : q ≠ k := fun h => hk (hq.trans h)
          simp [groupInsert, findVal, hk, hq, hqk]
        · simp [groupInsert, findVal, hk, hq, ih]

lemma findVal_foldl (ps : List (String × OutItem))
    (m : List (String × List OutItem)) (k : String) :
    findVal (ps.foldl (fun acc p => groupInsert acc p.1 p.2) m) k =
      findVal m k ++ (ps.filter (fun p => p.1 == k)).map (fun p => p.2) := by
  induction ps generalizing m with
  | nil => simp
  | cons p ps ih =>
      simp only [List.foldl_cons, List.filter_cons]
      by_cases hp : p.1 = k
      · rw [ih, findVal_groupInsert]
        simp [hp]
      · rw [ih, findVal_groupInsert]
        simp [hp, Ne.symm hp]

lemma keysOf_buildClusters (t : Int) (rows : List StoreRow) (labels : List Nat) :
    keysOf (buildClusters t rows labels) =
      dedupFirst ((rows.zip labels).map (fun p => toString p.2)) := by
  rw [buildClusters, keysOf_foldl]
  have hco : ((fun p : String × OutItem => p.1) ∘
      (fun p : StoreRow × Nat => (toString p.2, outItem t p.1))) =
      (fun p : StoreRow × Nat => toString p.2) := rfl
  simp only [keysOf, List.nil_append, dedupFirst, pairs, List.map_map, hco]

lemma findVal_buildClusters (t : Int) (rows : List StoreRow) (labels : List Nat)
    (k : String) :
    findVal (buildClusters t rows labels) k =
      ((rows.zip labels).filter (fun p => toString p.2 == k)).map
        (fun p => outItem t p.1) := by
  rw [buildClusters, findVal_foldl]
  simp only [findVal, List.nil_append, pairs]
  rw [List.filter_map, List.map_map]
  rfl

/-- C8: clusters are emitted in the order their label is first encountered
while scanning the zipped (row, label) pairs in retrieval order, and each
cluster's items are exactly the items of the rows carrying its label, in
their original retrieval order (an order-preserving filter of the scan). -/
theorem C8_emission_order (t : Int) (rows : List StoreRow) (labels : List Nat) :
    keysOf (buildClusters t rows labels) =
      dedupFirst ((rows.zip labels).map (fun p => toString p.2)) ∧
    ∀ k, findVal (buildClusters t rows labels) k =
      ((rows.zip labels).filter (fun p => toString p.2 == k)).map
        (fun p => outItem t p.1) :=
  ⟨keysOf_buildClusters t rows labels, fun k => findVal_buildClusters t rows labels k⟩

/-- Fixture for the summarization-input claims: one row with content "ab". -/
def xRows : List StoreRow := [⟨"i1", [1], some "ab", 1⟩]

/-- C2 counterexample: with truncate = 1, the item stored for the single
row has content "a"; the text handed to the model for that cluster is "a",
not the untruncated source content "ab" — truncation does affect the
summarization input. -/
theorem C2_counterexample :
    promptTextForCluster 1000 80 (fun k xs => xs.take k)
        (findVal (buildClusters 1 xRows [0]) "0") = "a" ∧
      untruncatedText xRows = "ab" ∧ ("a" : String) ≠ "ab" :=
  ⟨rfl, rfl, by decide⟩

/-- C2 (amended): the text sent to the model for each cluster is built from
the items' content as stored in the cluster payload, which is the truncated
content: the join over a cluster's items equals the join of the truncated
contents of the rows carrying its label, and (for truncate = k > 0) every
content available to the prompt, in the direct join as in the sampling
step, has length at most k. -/
theorem C2_prompt_uses_truncated (t : Int) (rows : List StoreRow)
    (labels : List Nat) (k : String) (ht : 0 < t) :
    joinContents (findVal (buildClusters t rows labels) k) =
      String.intercalate "\n"
        ((((rows.zip labels).filter (fun p => toString p.2 == k)).filterMap
          (fun p => truncate_text t p.1.content)).filter (fun s => s != "")) ∧
    (findVal (buildClusters t rows labels) k).all
      (fun i => (i.content.getD "").length ≤ t.toNat) = true := by
  constructor
  · rw [findVal_buildClusters]
    unfold joinContents
    congr 1
    rw [List.filterMap_map]
    rfl
  · rw [findVal_buildClusters, List.all_eq_true]
    intro i hi
    obtain ⟨p, hp, rfl⟩ := List.mem_map.mp hi
    simp only [outItem, decide_eq_true_eq]
    match hc : p.1.content with
    | none => simp [truncate_text]
    | some s =>
        by_cases hs : s = ""
        · simp [truncate_text, hs]
        · simp only [truncate_text, if_neg hs, if_pos ht, Option.getD_some]
          show (s.data.take t.toNat).length ≤ t.toNat
          exact List.length_take_le _ _

theorem C2_prompt_uses_truncated_witness :
    (0 : Int) < 1 ∧
      (joinContents (findVal (buildClusters 1 xRows [0]) "0") =
        String.intercalate "\n"
          ((((xRows.zip ([0] : List Nat)).filter
            (fun p => toString p.2 == "0")).filterMap
            (fun p => truncate_text 1 p.1.content)).filter (fun s => s != "")) ∧
      (findVal (buildClusters 1 xRows [0]) "0").all
        (fun i => (i.content.getD "").length ≤ (1 : Int).toNat) = true) :=
  ⟨by decide, C2_prompt_uses_truncated 1 xRows [0] "0" (by decide)⟩

/-- Fixture store for the missing-collection claims. -/
def cStore : Store := ⟨[("docs", 1)], [⟨"a", [1], some "x", 1⟩]⟩

/-- C3 counterexample: against a store whose only collection is "docs", a
run for name "missing" fails with the clustering error raised by fitting
zero samples, not with NotFoundError. -/
theorem C3_counterexample :
    runCluster fitStub cStore "missing" 2 100 =
        Except.error RunError.clustering ∧
      RunError.clustering ≠ RunError.notFound :=
  ⟨rfl, by decide⟩

/-- C3 (amended): when the given collection name does not exist in the
store, the row query returns no rows (the scalar subquery is NULL), and the
run fails when clustering is attempted on the empty vector set — a
clustering parameter error, not NotFoundError; no cluster list (hence no
JSON) is emitted. -/
theorem C3_missing_collection
    (fit : List (List Int) → Nat → Except RunError (List Nat))
    (st : Store) (name : String) (n : Nat) (t : Int)
    (hfit : ∀ m, fit [] m = Except.error RunError.clustering)
    (hname : lookupCollection st name = none) :
    readRows st name = [] ∧
      runCluster fit st name n t = Except.error RunError.clustering ∧
      runCluster fit st name n t ≠ Except.error RunError.notFound := by
  have hrows : readRows st name = [] := by
    unfold readRows
    rw [hname]
  refine ⟨hrows, ?_, ?_⟩
  · unfold runCluster
    rw [hrows]
    simp [hfit]
  · unfold runCluster
    rw [hrows]
    simp [hfit]

theorem C3_missing_collection_witness :
    readRows cStore "nope" = [] ∧
      runCluster fitStub cStore "nope" 2 100 =
        Except.error RunError.clustering ∧
      runCluster fitStub cStore "nope" 2 100 ≠
        Except.error RunError.notFound :=
  C3_missing_collection fitStub cStore "nope" 2 100 (fun m => rfl) (by rfl)
